import Mathlib

/-!
Shallow embedding of `sensibo_scheduler.py` (Sensibo fallback scheduler).

Time is modelled as integer seconds (UTC epoch seconds for monotonic
timestamps, seconds-of-day plus a weekday for local wall-clock time).
Temperatures are rationals.  Fallible remote reads are `Option` values:
`none` is a failed or absent read.  The module-level mutable state of the
script (`_temp : _TempMon`, `_state` cache) is passed explicitly; the
actuation calls (`_set_ac`, `_set_cr`) become elements of an emitted
action trace.
-/

namespace Sensibo

/-- `_TEMP_HIGH = 24.5` °C absolute threshold. -/
def TEMP_HIGH : ℚ := 49 / 2

/-- `_DELTA_COOL = 0.3` °C the room should drop within 10 min. -/
def DELTA_COOL : ℚ := 3 / 10

/-- `_COOLDOWN_MIN = 15` minutes between forced-ON events. -/
def COOLDOWN_MIN : Int := 15

/-- `_STATE_TTL = 600` seconds cache for CR/AC state. -/
def STATE_TTL : Int := 600

/-- An actuation command issued over HTTP by `_set_ac` / `_set_cr`. -/
inductive Action where
  | setAC (power : Bool)
  | setCR (enable : Bool)
deriving DecidableEq, Repr

/-- The mutable state of class `_TempMon`: `history` is the list of
`(timestamp, value)` samples with the newest last, `last_intervention`
the time of the last forced-ON event (`None` initially). -/
structure TempMon where
  history : List (Int × ℚ)
  last_intervention : Option Int
deriving DecidableEq, Repr

/-- `_TempMon.add`: `self.history.append((now, v)); del self.history[:-24]`
— append the sample, then keep only the last 24 entries. -/
def TempMon.add (m : TempMon) (now : Int) (v : ℚ) : TempMon :=
  let h := m.history ++ [(now, v)]
  { m with history := h.drop (h.length - 24) }

/-- `_TempMon.delta_since`: `None` on empty history; otherwise walk the
history backwards (newest first) for the first sample at least
`minutes` old; `None` if there is none, else `history[-1][1] - past_val`
(positive = warming). -/
def TempMon.delta_since (m : TempMon) (now : Int) (minutes : Int) : Option ℚ :=
  match m.history.getLast? with
  | none => none
  | some last =>
    match m.history.reverse.find? (fun p => minutes * 60 ≤ now - p.1) with
    | none => none
    | some p => some (last.2 - p.2)

/-- `_TempMon.cooldown_ok`: true when `last_intervention` is `None` or at
least `_COOLDOWN_MIN * 60` seconds have elapsed since it. -/
def TempMon.cooldown_ok (m : TempMon) (now : Int) : Bool :=
  match m.last_intervention with
  | none => true
  | some t => COOLDOWN_MIN * 60 ≤ now - t

/-- `_TempMon.mark`: `self.last_intervention = utcnow()`. -/
def TempMon.mark (m : TempMon) (now : Int) : TempMon :=
  { m with last_intervention := some now }

/-- A local wall-clock instant as seen by `_day_window`: the Python
`weekday()` (Mon = 0 … Sun = 6) and the time of day in seconds. -/
structure LocalTime where
  weekday : Nat
  secondsOfDay : Nat
deriving DecidableEq, Repr

/-- `_day_window(now)`: `now.weekday() in (3, 4, 5)` (Thu/Fri/Sat) and
`time(9) <= now.time() < time(20)`. -/
def day_window (now : LocalTime) : Bool :=
  (now.weekday == 3 || now.weekday == 4 || now.weekday == 5)
    && decide (9 * 3600 ≤ now.secondsOfDay)
    && decide (now.secondsOfDay < 20 * 3600)

/-- The reason string computed inside `fallback`: rule 1 is the absolute
threshold, rule 2 the no-cooling delta (which interpolates the delta
into the message). -/
inductive Reason where
  | threshold
  | trend (delta : ℚ)
deriving DecidableEq, Repr

/-- The `reason` computation of `fallback` (lines 224–233): only under
`cooldown_ok`; rule 1 (`not ac_on and temp >= _TEMP_HIGH`) first, else
rule 2 (`ac_on and delta is not None and delta >= _DELTA_COOL`). -/
def fallbackReason (m : TempMon) (now : Int) (ac_on : Bool) (temp : ℚ) :
    Option Reason :=
  if m.cooldown_ok now then
    if ac_on = false ∧ TEMP_HIGH ≤ temp then
      some Reason.threshold
    else
      match m.delta_since now 10 with
      | some delta =>
          if ac_on = true ∧ DELTA_COOL ≤ delta then some (Reason.trend delta)
          else none
      | none => none
  else none

/-- Result of one `fallback` tick: the actuation commands issued and the
updated `_temp` monitor state. -/
structure FallbackResult where
  actions : List Action
  mon : TempMon
deriving DecidableEq, Repr

/-- One tick of `fallback(pid, tz)` (lines 209–238), with the observed
remote reads passed in: `cr_on` the (cached) Climate-React enabled flag,
`ac_on` the (cached) AC power flag, `temp` the fresh temperature
(`none` = absent).  Outside the day window, or with CR disabled, or with
no temperature, it returns without acting; otherwise it records the
sample and, when a reason fires, issues `_set_ac(pid, True)` and marks
the intervention. -/
def fallback (nowLocal : LocalTime) (now : Int) (cr_on ac_on : Bool)
    (temp : Option ℚ) (m : TempMon) : FallbackResult :=
  if day_window nowLocal = false then ⟨[], m⟩
  else if cr_on = false then ⟨[], m⟩
  else
    match temp with
    | none => ⟨[], m⟩
    | some t =>
      let m1 := m.add now t
      match fallbackReason m1 now ac_on t with
      | some _ => ⟨[Action.setAC true], m1.mark now⟩
      | none => ⟨[], m1⟩

/-- `day_end(pid)` (lines 244–246): `_set_cr(pid, False); _set_ac(pid, False)`. -/
def day_end_actions : List Action := [Action.setCR false, Action.setAC false]

/-- `nightly_off(pid)` (lines 251–253): `_set_cr(pid, False); _set_ac(pid, False)`. -/
def nightly_off_actions : List Action := [Action.setCR false, Action.setAC false]

/-- One entry of the `_state` cache for a fixed key, as `_cached` sees
it: the fetch timestamp and the stored value.  The Python default for an
absent key is `(datetime.fromtimestamp(0), None)`, i.e. `(0, none)`. -/
abbrev CacheEntry (α : Type) : Type := Int × Option α

/-- Result of `_cached`: the returned value, the updated entry, and
whether the fetcher was invoked. -/
structure CachedResult (α : Type) where
  val : Option α
  entry : CacheEntry α
  fetched : Bool

/-- `_cached(key, ttl, fetcher)` (lines 112–119) for one key: if the
entry is younger than `ttl` seconds return the stored value without
fetching; otherwise store and return the fetcher's result — whatever it
is, a failed fetch (`none`) included. -/
def cached (entry : CacheEntry α) (now ttl : Int) (fetchVal : Option α) :
    CachedResult α :=
  if now - entry.1 < ttl then ⟨entry.2, entry, false⟩
  else ⟨fetchVal, (now, fetchVal), true⟩

/-- The fetcher lambda of `_cr_enabled`: from the raw API read of the
`enabled` field (`none` = request failed or field missing),
`(_get(...) or {}).get("enabled", False)` yields `false`. -/
def crFetch (apiEnabled : Option Bool) : Bool :=
  apiEnabled.getD false

/-- `_cr_enabled(pid)` (lines 121–130): run the fetcher result through
the 600-second cache and coerce the cached value with `bool(...)`
(`bool(None) = False`). -/
def cr_enabled (entry : CacheEntry Bool) (now : Int)
    (apiEnabled : Option Bool) : Bool × CacheEntry Bool × Bool :=
  let r := cached entry now STATE_TTL (some (crFetch apiEnabled))
  ((r.val.getD false), r.entry, r.fetched)

/-- The latest measurement record as `_temperature` consumes it:
`temperature` is the raw `temperature` field, `tsParsed` the timestamp
when `rec.get("time") or rec.get("sensiboTime")` exists and
`fromisoformat` (and the ensuing subtraction) succeeds, `none` when the
timestamp is missing or unparseable. -/
structure Meas where
  temperature : Option ℚ
  tsParsed : Option Int
deriving DecidableEq, Repr

/-- `_temperature(pid)` (lines 141–154) given the measurement list from
the API: `None` on a failed or empty read; otherwise take the first
record, drop it when its parsed timestamp is more than 600 seconds old,
and on a missing/unparseable timestamp skip the staleness check
(`except: pass`) and return the raw value. -/
def temperature (meas : List Meas) (now : Int) : Option ℚ :=
  match meas with
  | [] => none
  | rec :: _ =>
    match rec.tsParsed with
    | some ts => if 600 < now - ts then none else rec.temperature
    | none => rec.temperature

end Sensibo

namespace Sensibo

/-- Appending a sample does not touch the intervention record. -/
theorem add_last_intervention (m : TempMon) (now : Int) (v : ℚ) :
    (m.add now v).last_intervention = m.last_intervention := rfl

/-- The cooldown gate only reads the intervention record, so `add`
leaves it unchanged. -/
theorem add_cooldown_ok (m : TempMon) (now t : Int) (v : ℚ) :
    (m.add now v).cooldown_ok t = m.cooldown_ok t := rfl

/-- C1: For every tick of the fallback monitor, under any combination of
window state, controller-enabled flag, device-on flag, temperature
reading, and history, the fallback never issues a device power-off
command: the only actuation it can emit is forcing the device on
(`setAC true`). -/
theorem fallback_only_forces_on (nowLocal : LocalTime) (now : Int)
    (cr_on ac_on : Bool) (temp : Option ℚ) (m : TempMon) :
    (fallback nowLocal now cr_on ac_on temp m).actions = []
    ∨ (fallback nowLocal now cr_on ac_on temp m).actions = [Action.setAC true] := by
  unfold fallback
  split
  · exact Or.inl rfl
  split
  · exact Or.inl rfl
  cases temp with
  | none => exact Or.inl rfl
  | some t =>
    simp only
    split
    · exact Or.inr rfl
    · exact Or.inl rfl

/-- C2: For every tick where the controller-enabled flag is false, or
where the cooldown has not elapsed, the fallback issues no actuation and
records no intervention. -/
theorem fallback_respects_disable_and_cooldown (nowLocal : LocalTime)
    (now : Int) (cr_on ac_on : Bool) (temp : Option ℚ) (m : TempMon)
    (h : cr_on = false ∨ m.cooldown_ok now = false) :
    (fallback nowLocal now cr_on ac_on temp m).actions = []
    ∧ (fallback nowLocal now cr_on ac_on temp m).mon.last_intervention
      = m.last_intervention := by
  unfold fallback
  split
  · exact ⟨rfl, rfl⟩
  split
  · exact ⟨rfl, rfl⟩
  next hcr =>
  rcases h with h | h
  · exact absurd h hcr
  cases temp with
  | none => exact ⟨rfl, rfl⟩
  | some t =>
    simp only
    have hreason : fallbackReason (m.add now t) now ac_on t = none := by
      unfold fallbackReason
      rw [add_cooldown_ok, h]
      simp
    rw [hreason]
    exact ⟨rfl, add_last_intervention m now t⟩

/-- C2 witness: a concrete in-window tick with the controller disabled
produces no action and leaves the intervention record untouched. -/
theorem fallback_respects_disable_witness :
    (fallback ⟨3, 12 * 3600⟩ 1000 false true (some 30) (TempMon.mk [] none)).actions = []
    ∧ (fallback ⟨3, 12 * 3600⟩ 1000 false true
        (some 30) (TempMon.mk [] none)).mon.last_intervention
      = (TempMon.mk [] none).last_intervention :=
  fallback_respects_disable_and_cooldown ⟨3, 12 * 3600⟩ 1000 false true
    (some 30) (TempMon.mk [] none) (Or.inl rfl)

/-- C3 counterexample: a tick outside every window (Wednesday noon) with
the cached controller-enabled and device-on flags both true issues no
command at all — in particular neither the "disable controller" nor the
"power off" command the claim requires. -/
theorem fallback_outside_window_cex :
    (fallback ⟨2, 12 * 3600⟩ 0 true true (some 30) (TempMon.mk [] none)).actions
      = [] := rfl

/-- C3 amended: on a tick whose time is outside every window, the
fallback monitor returns immediately and issues no command regardless of
the cached flags; the "disable controller" and "power off" commands at
window exit are issued by the separately scheduled `day_end` /
`nightly_off` jobs. -/
theorem fallback_outside_window_idle (nowLocal : LocalTime) (now : Int)
    (cr_on ac_on : Bool) (temp : Option ℚ) (m : TempMon)
    (h : day_window nowLocal = false) :
    (fallback nowLocal now cr_on ac_on temp m).actions = []
    ∧ (fallback nowLocal now cr_on ac_on temp m).mon = m
    ∧ day_end_actions = [Action.setCR false, Action.setAC false]
    ∧ nightly_off_actions = [Action.setCR false, Action.setAC false] := by
  unfold fallback
  rw [if_pos h]
  exact ⟨rfl, rfl, rfl, rfl⟩

/-- C3 amended witness: the concrete Wednesday-noon tick above, with
observed flags true, is idle. -/
theorem fallback_outside_window_idle_witness :
    (fallback ⟨2, 12 * 3600⟩ 0 true true (some 30) (TempMon.mk [] none)).actions = []
    ∧ (fallback ⟨2, 12 * 3600⟩ 0 true true (some 30) (TempMon.mk [] none)).mon
      = TempMon.mk [] none
    ∧ day_end_actions = [Action.setCR false, Action.setAC false]
    ∧ nightly_off_actions = [Action.setCR false, Action.setAC false] :=
  fallback_outside_window_idle ⟨2, 12 * 3600⟩ 0 true true (some 30)
    (TempMon.mk [] none) rfl

/-- C4: at most one reason fires per cycle in fixed priority order: when
the cooldown is open, the device is off and the temperature is at or
above the threshold, the reason is the threshold reason (even if a trend
condition would independently fire); and a trend reason can only be
returned when the threshold rule did not fire. -/
theorem fallbackReason_priority (m : TempMon) (now : Int) (ac_on : Bool)
    (temp : ℚ) :
    (m.cooldown_ok now = true → ac_on = false → TEMP_HIGH ≤ temp →
      fallbackReason m now ac_on temp = some Reason.threshold)
    ∧ (∀ d, fallbackReason m now ac_on temp = some (Reason.trend d) →
        ¬(ac_on = false ∧ TEMP_HIGH ≤ temp)) := by
  constructor
  · intro hcd hac htemp
    unfold fallbackReason
    rw [hcd, if_pos rfl, if_pos ⟨hac, htemp⟩]
  · intro d hfire hthr
    unfold fallbackReason at hfire
    by_cases hcd : m.cooldown_ok now = true
    · rw [hcd, if_pos rfl, if_pos hthr] at hfire
      exact Reason.noConfusion (Option.some.inj hfire)
    · rw [Bool.not_eq_true] at hcd
      rw [hcd] at hfire
      simp at hfire

/-- C4 witness: with the device off, temperature 25.0 °C, open cooldown,
and a history showing a +0.5 °C warming delta over the trailing window,
the reason returned is the threshold reason. -/
theorem fallbackReason_priority_witness :
    fallbackReason (TempMon.mk [((-720 : Int), 49 / 2), (0, 25)] none) 0 false 25
      = some Reason.threshold :=
  (fallbackReason_priority (TempMon.mk [((-720 : Int), 49 / 2), (0, 25)] none)
      0 false 25).1 rfl rfl (by norm_num [TEMP_HIGH])

end Sensibo

namespace Sensibo

/-- C5: `cooldown_ok` is true when no intervention has ever been
recorded; after `mark` at time `t0` it is false at every query time
strictly before `t0` plus 15 minutes and true at or after it. -/
theorem cooldown_ok_spec (m : TempMon) (h : List (Int × ℚ)) (t0 t : Int) :
    (TempMon.mk h none).cooldown_ok t = true
    ∧ (t < t0 + COOLDOWN_MIN * 60 → (m.mark t0).cooldown_ok t = false)
    ∧ (t0 + COOLDOWN_MIN * 60 ≤ t → (m.mark t0).cooldown_ok t = true) := by
  have h15 : COOLDOWN_MIN = 15 := rfl
  refine ⟨rfl, ?_, ?_⟩
  · intro hlt
    rw [h15] at hlt
    simp only [TempMon.cooldown_ok, TempMon.mark, h15,
      decide_eq_false_iff_not]
    omega
  · intro hge
    rw [h15] at hge
    simp only [TempMon.cooldown_ok, TempMon.mark, h15,
      decide_eq_true_eq]
    omega

/-- C5 witness: after an intervention at time 0, the gate is closed 100
seconds later and open 900 seconds (= 15 minutes) later. -/
theorem cooldown_ok_spec_witness :
    ((TempMon.mk [] none).mark 0).cooldown_ok 100 = false
    ∧ ((TempMon.mk [] none).mark 0).cooldown_ok 900 = true :=
  ⟨(cooldown_ok_spec (TempMon.mk [] none) [] 0 100).2.1 (by norm_num [COOLDOWN_MIN]),
   (cooldown_ok_spec (TempMon.mk [] none) [] 0 900).2.2 (by norm_num [COOLDOWN_MIN])⟩

/-- C6: window classification is a total function of the local time that
reports the day window active exactly when the weekday is Thursday,
Friday or Saturday (Python weekday 3, 4, 5) and the time of day lies in
the half-open interval [09:00, 20:00); in particular it is active at
09:00:00 and 19:59:59 and inactive at 08:59:59 and 20:00:00. -/
theorem day_window_spec (lt : LocalTime) :
    (day_window lt = true ↔
      ((lt.weekday = 3 ∨ lt.weekday = 4 ∨ lt.weekday = 5)
        ∧ 9 * 3600 ≤ lt.secondsOfDay ∧ lt.secondsOfDay < 20 * 3600))
    ∧ day_window ⟨3, 9 * 3600⟩ = true
    ∧ day_window ⟨3, 19 * 3600 + 59 * 60 + 59⟩ = true
    ∧ day_window ⟨3, 8 * 3600 + 59 * 60 + 59⟩ = false
    ∧ day_window ⟨3, 20 * 3600⟩ = false := by
  refine ⟨?_, by decide, by decide, by decide, by decide⟩
  simp [day_window, Bool.and_eq_true, Bool.or_eq_true, beq_iff_eq,
    decide_eq_true_eq, and_assoc, or_assoc]

end Sensibo

namespace Sensibo

/-- `find?` returns the marked element when everything before it fails
the predicate and the element itself satisfies it. -/
theorem find?_skip_failing (pred : α → Bool) (l1 : List α) (p : α)
    (l2 : List α) (h1 : ∀ x ∈ l1, pred x = false) (h2 : pred p = true) :
    (l1 ++ p :: l2).find? pred = some p := by
  induction l1 with
  | nil => simp [List.find?_cons_of_pos, h2]
  | cons a l ih =>
    rw [List.cons_append, List.find?_cons_of_neg]
    · exact ih fun x hx => h1 x (List.mem_cons_of_mem a hx)
    · simp [h1 a (List.mem_cons_self a l)]

/-- C7: `delta_since` returns none on an empty history or when no sample
is at least `minutes` old; when some sample is old enough, it returns
the newest sample's value minus the value of the most recent (walking
backward from the newest) sample at least `minutes` old; in particular,
with samples 21.5 °C at `t − 12 min` and 22.0 °C at `t` and nothing
between, `delta_since 10` returns +0.5. -/
theorem delta_since_spec (m : TempMon) (now minutes : Int) :
    (m.history = [] → m.delta_since now minutes = none)
    ∧ ((∀ p ∈ m.history, now - p.1 < minutes * 60) →
        m.delta_since now minutes = none)
    ∧ (∀ last pre p rest, m.history = pre ++ p :: rest →
        m.history.getLast? = some last →
        minutes * 60 ≤ now - p.1 →
        (∀ q ∈ rest, now - q.1 < minutes * 60) →
        m.delta_since now minutes = some (last.2 - p.2))
    ∧ ∀ t : Int,
        (TempMon.mk [(t - 720, 43 / 2), (t, 22)] none).delta_since t 10
          = some (1 / 2) := by
  refine ⟨?_, ?_, ?_, ?_⟩
  · intro h
    simp [TempMon.delta_since, h]
  · intro h
    unfold TempMon.delta_since
    cases hL : m.history.getLast? with
    | none => rfl
    | some last =>
      have hfind : m.history.reverse.find?
          (fun p => decide (minutes * 60 ≤ now - p.1)) = none := by
        refine List.find?_eq_none.mpr fun x hx => ?_
        rw [List.mem_reverse] at hx
        simp only [decide_eq_true_eq, not_le]
        exact h x hx
      rw [hfind]
  · intro last pre p rest hh hl hp hrest
    unfold TempMon.delta_since
    rw [hl]
    have hrev : m.history.reverse = rest.reverse ++ p :: pre.reverse := by
      rw [hh]
      simp
    rw [hrev, find?_skip_failing]
    · intro x hx
      rw [List.mem_reverse] at hx
      simp only [decide_eq_false_iff_not, not_le]
      exact hrest x hx
    · simpa using hp
  · intro t
    have h1 : (decide ((10 : Int) * 60 ≤ t - t)) = false := by
      simp
    have h2 : (decide ((10 : Int) * 60 ≤ t - (t - 720))) = true := by
      simp only [decide_eq_true_eq]
      omega
    simp [TempMon.delta_since, List.find?, h1, h2]
    norm_num

/-- C7 witness: on the concrete history 20 °C at 0 s, 21.5 °C at 280 s,
22 °C at 1000 s, `delta_since` at time 1000 with a 10-minute span picks
the 280 s sample (the most recent one at least 600 s old) and returns
+0.5. -/
theorem delta_since_spec_witness :
    (TempMon.mk [((0 : Int), 20), (280, 43 / 2), (1000, 22)] none).delta_since
      1000 10 = some (22 - 43 / 2) :=
  (delta_since_spec
      (TempMon.mk [((0 : Int), 20), (280, 43 / 2), (1000, 22)] none)
      1000 10).2.2.1 (1000, 22) [((0 : Int), 20)] (280, 43 / 2) [(1000, 22)]
    rfl rfl (by norm_num) (by decide)

/-- C8 counterexample: appending a sample does not evict by age — after
`add` at time 36000 s, the sample recorded at time 0 (ten hours old,
far beyond the ≈2-hour horizon of 7200 s) is still in the history. -/
theorem add_age_unbounded_cex :
    ((0 : Int), (20 : ℚ)) ∈
      ((TempMon.mk [((0 : Int), (20 : ℚ))] none).add 36000 21).history
    ∧ (2 * 3600 : Int) < 36000 - 0 := by
  constructor
  · simp [TempMon.add]
  · norm_num

/-- C8 amended: recording a temperature sample enforces only the count
bound — after every append the history contains at most 24 samples; no
age bound is applied (samples older than the ≈2-hour horizon survive
when fewer than 24 newer samples exist). -/
theorem add_count_bound (m : TempMon) (now : Int) (v : ℚ) :
    ((m.add now v).history).length ≤ 24 := by
  simp [TempMon.add]
  omega

/-- The fallback tick acts on nothing when the controller-enabled read
is false. -/
theorem fallback_cr_disabled (lt : LocalTime) (nowU : Int) (ac : Bool)
    (temp : Option ℚ) (m : TempMon) :
    (fallback lt nowU false ac temp m).actions = []
    ∧ (fallback lt nowU false ac temp m).mon = m := by
  unfold fallback
  split
  · exact ⟨rfl, rfl⟩
  · rw [if_pos rfl]
    exact ⟨rfl, rfl⟩

/-- C9: `_cached` stores the fetcher's result even when the fetch failed
(`none`), and serves it for the whole TTL without re-fetching; in
particular one failed controller-enabled fetch caches `false`, every
read within the 600-second TTL yields `false` without fetching, and a
tick that reads that cached `false` issues no actuation. -/
theorem cr_cache_failure (entry : CacheEntry Bool) (t0 t : Int)
    (later : Option Bool) (hexp : ¬(t0 - entry.1 < STATE_TTL))
    (hin : t - t0 < STATE_TTL) :
    (cached entry t0 STATE_TTL (none : Option Bool)).entry = (t0, none)
    ∧ (cached ((t0, none) : CacheEntry Bool) t STATE_TTL later).val = none
    ∧ (cached ((t0, none) : CacheEntry Bool) t STATE_TTL later).fetched = false
    ∧ (cr_enabled entry t0 none).1 = false
    ∧ (cr_enabled entry t0 none).2.1 = (t0, some false)
    ∧ (cr_enabled ((t0, some false) : CacheEntry Bool) t later).1 = false
    ∧ (cr_enabled ((t0, some false) : CacheEntry Bool) t later).2.2 = false
    ∧ ∀ lt nowU ac temp m,
        (fallback lt nowU
          ((cr_enabled ((t0, some false) : CacheEntry Bool) t later).1)
          ac temp m).actions = []
        ∧ (fallback lt nowU
            ((cr_enabled ((t0, some false) : CacheEntry Bool) t later).1)
            ac temp m).mon = m := by
  have hread : (cr_enabled ((t0, some false) : CacheEntry Bool) t later).1
      = false := by
    simp [cr_enabled, cached, hin]
  refine ⟨?_, ?_, ?_, ?_, ?_, hread, ?_, ?_⟩
  · simp [cached, hexp]
  · simp [cached, hin]
  · simp [cached, hin]
  · simp [cr_enabled, cached, crFetch, hexp]
  · simp [cr_enabled, cached, crFetch, hexp]
  · simp [cr_enabled, cached, hin]
  · intro lt nowU ac temp m
    rw [hread]
    exact fallback_cr_disabled lt nowU ac temp m

/-- C9 witness: the state cache primed by a failed fetch at 10000 s
still reports the controller as disabled at 10300 s even though the
remote now says enabled. -/
theorem cr_cache_failure_witness :
    (cr_enabled (((10000 : Int), some false) : CacheEntry Bool) 10300
      (some true)).1 = false :=
  (cr_cache_failure ((0 : Int), none) 10000 10300 (some true)
      (by norm_num [STATE_TTL]) (by norm_num [STATE_TTL])).2.2.2.2.2.1

/-- C10: when the latest measurement's timestamp is missing or
unparseable, the temperature fetch skips the 600-second staleness check
and returns the reading's raw value, at any evaluation time. -/
theorem temperature_unparseable_ts (rec : Meas) (rest : List Meas)
    (now : Int) (h : rec.tsParsed = none) :
    temperature (rec :: rest) now = rec.temperature := by
  simp [temperature, h]

/-- C10 witness: a 23 °C reading with no parseable timestamp is returned
as fresh even when evaluated arbitrarily far in the future. -/
theorem temperature_unparseable_ts_witness :
    temperature [Meas.mk (some 23) none] 999999 = some 23 :=
  temperature_unparseable_ts (Meas.mk (some 23) none) [] 999999 rfl

end Sensibo
